import Mathlib

/-!
Verification development for the class-scheduler Appwrite functions.

The repository stores class documents in a document database; the handlers
read a document, compute in JavaScript, and write a patch back.  This file
gives a shallow embedding of the two core parts:

* the class roster operations `joinClass`, `leaveClass`, `createClass`
  (classManagement revision `src/unnamed/part_002`, whose `joinClass` and
  `leaveClass` coincide with `src/unnamed/part_004`; the older revision
  `src/unnamed/part_001` is embedded as `joinClass_v1`), and
* the availability matching helpers `findMatchingUsers` / `checkForMatches`
  (`src/availabilityManagement/src/main.js`).

JavaScript field values that matter to the control flow (`totalSpots` can be
absent, a number, a string, or NaN) are embedded as `DocVal`, with the JS
truthiness, `ToNumber` coercion, `>=` comparison and subtraction the handlers
rely on.  String-to-number coercion is modelled for the value space that
occurs here: the empty string coerces to 0, a digit string to its value, and
every other string to NaN (`none`).
-/

namespace ClassScheduler

/-- Value of a JavaScript document field as the handlers see it: absent
(`undef`), a number, a string, or NaN (which can arise from arithmetic on a
non-numeric `totalSpots`). -/
inductive DocVal where
  | undef : DocVal
  | num : Int → DocVal
  | str : String → DocVal
  | nan : DocVal
  deriving DecidableEq, Repr

/-- Numeric value of one decimal digit character. -/
def digitVal (c : Char) : Option Nat :=
  if c.isDigit then some (c.toNat - 48) else none

/-- Accumulating decimal parser over a character list; fails on the first
non-digit character (JS `ToNumber` yields NaN there). -/
def parseNatAux : List Char → Nat → Option Nat
  | [], acc => some acc
  | c :: cs, acc =>
    match digitVal c with
    | some d => parseNatAux cs (acc * 10 + d)
    | none => none

/-- JS `ToNumber` on a string, restricted to the value space used by the
handlers: the empty string is 0, a digit string is its value, anything else
is NaN (`none`). -/
def strToNumber (s : String) : Option Int :=
  match s.toList with
  | [] => some 0
  | cs => (parseNatAux cs 0).map (fun n => (n : Int))

/-- JS truthiness of a document field value. -/
def jsTruthy : DocVal → Bool
  | .undef => false
  | .num i => i != 0
  | .str s => s != ""
  | .nan => false

/-- JS `ToNumber` of a document field value; `none` is NaN. -/
def jsToNumber : DocVal → Option Int
  | .undef => none
  | .num i => some i
  | .str s => strToNumber s
  | .nan => none

/-- The `v || 0` coercion the part_002 handler applies to `totalSpots`. -/
def jsOrZero (v : DocVal) : DocVal :=
  if jsTruthy v then v else .num 0

/-- The `data.totalSpots || 5` defaulting used by `createClass`. -/
def jsOr5 (v : DocVal) : DocVal :=
  if jsTruthy v then v else .num 5

/-- JS comparison `count >= v` for a member count against a field value:
numeric comparison after coercion, false when the coercion yields NaN. -/
def jsGe (count : Nat) (v : DocVal) : Bool :=
  match jsToNumber v with
  | some m => decide ((count : Int) ≥ m)
  | none => false

/-- JS subtraction `v - n` used to recompute `spotsLeft`; NaN propagates. -/
def jsSubNat (v : DocVal) (n : Nat) : DocVal :=
  match jsToNumber v with
  | some m => .num (m - n)
  | none => .nan

/-- One entry of a class document's `members` array.  In part_002/part_004
the stored entries are JSON strings; an entry that round-trips through
`JSON.parse` is `ok userId name joinedAt` (part_001 stores plain
`{userId, name}` objects, embedded with an empty `joinedAt`), and `bad s`
is a stored string on which `JSON.parse` throws. -/
inductive MemberEntry where
  | ok : String → String → String → MemberEntry
  | bad : String → MemberEntry
  deriving DecidableEq, Repr

/-- The `member.userId === data.userId` test the handlers run on one parsed
entry; a parse failure is caught and counts as no match. -/
def entryIsUser (userId : String) : MemberEntry → Bool
  | .ok uid _ _ => uid == userId
  | .bad _ => false

/-- A class document.  `members` mirrors the stored array (the handlers
replace a non-array value by `[]` before reading it), `totalSpots` and
`spotsLeft` keep their raw JS values. -/
structure ClassDoc where
  id : String
  classTypeId : String
  day : String
  time : String
  members : List MemberEntry
  totalSpots : DocVal
  spotsLeft : DocVal
  status : String
  deriving DecidableEq, Repr

/-- Outcome reported by a `joinClass` request. -/
inductive JoinResult where
  | success : JoinResult
  | full : JoinResult
  | alreadyJoined : JoinResult
  deriving DecidableEq, Repr

/-- The `joinClass` action of `src/unnamed/part_002` (lines 308-369; the
same logic appears in `src/unnamed/part_004`): reject with `full` when
`members.length >= (totalSpots || 0)`, then with `alreadyJoined` when some
parseable entry carries the user's id, otherwise append the new member
string and write back `members` together with
`spotsLeft = (totalSpots || 0) - members.length`. -/
def joinClass (doc : ClassDoc) (userId name nowIso : String) :
    JoinResult × ClassDoc :=
  let currentMembersCount := doc.members.length
  if jsGe currentMembersCount (jsOrZero doc.totalSpots) then
    (.full, doc)
  else if doc.members.any (entryIsUser userId) then
    (.alreadyJoined, doc)
  else
    let updatedMembers := doc.members ++ [MemberEntry.ok userId name nowIso]
    (.success,
      { doc with
          members := updatedMembers,
          spotsLeft := jsSubNat (jsOrZero doc.totalSpots) updatedMembers.length })

/-- The `joinClass` action of the older revision `src/unnamed/part_001`
(lines 117-159): `totalSpots` is coerced by a `typeof` check (any non-number
becomes 0, NaN stays NaN), there is no duplicate-membership check, and the
member object is appended without a `joinedAt` field. -/
def joinClass_v1 (doc : ClassDoc) (userId name : String) :
    JoinResult × ClassDoc :=
  let totalSpots : DocVal :=
    match doc.totalSpots with
    | .num i => .num i
    | .nan => .nan
    | _ => .num 0
  let currentMembersCount := doc.members.length
  if jsGe currentMembersCount totalSpots then
    (.full, doc)
  else
    let updatedMembers := doc.members ++ [MemberEntry.ok userId name ""]
    (.success,
      { doc with
          members := updatedMembers,
          spotsLeft := jsSubNat totalSpots updatedMembers.length })

/-- Outcome reported by a `leaveClass` request. -/
inductive LeaveResult where
  | success : LeaveResult
  | notEnrolled : LeaveResult
  deriving DecidableEq, Repr

/-- The `leaveClass` action of `src/unnamed/part_002` (lines 423-471; same
logic in `src/unnamed/part_004`): filter out every entry whose parsed
`userId` matches (entries that fail to parse are kept), answer
`notEnrolled` without writing when nothing was removed, otherwise write the
filtered array and `spotsLeft = (totalSpots || 0) - members.length`. -/
def leaveClass (doc : ClassDoc) (userId : String) :
    LeaveResult × ClassDoc :=
  let currentMembers := doc.members
  let updatedMembersAfterLeave :=
    currentMembers.filter (fun e => ! entryIsUser userId e)
  if updatedMembersAfterLeave.length = currentMembers.length then
    (.notEnrolled, doc)
  else
    (.success,
      { doc with
          members := updatedMembersAfterLeave,
          spotsLeft :=
            jsSubNat (jsOrZero doc.totalSpots) updatedMembersAfterLeave.length })

/-- Input payload of a `createClass` request (part_002): `classTypeId` may be
missing, `initialMembers` may be missing, `totalSpots` is a raw JS value. -/
structure CreateInput where
  classTypeId : Option String
  day : String
  time : String
  initialMembers : Option (List MemberEntry)
  totalSpots : DocVal
  deriving DecidableEq, Repr

/-- Error thrown by `createClass` (surfaced by the handler as a failure
response): a falsy `classTypeId`, or a `classTypeId` whose
`ClassTypeDefinition` lookup fails. -/
inductive CreateError where
  | missingClassTypeId : CreateError
  | classTypeNotFound : CreateError
  deriving DecidableEq, Repr

/-- The `createClass` action of `src/unnamed/part_002` (lines 561-600).
`classTypes` is the set of existing `ClassTypeDefinition` ids, `newId` the
id minted by `ID.unique()`.  The source computes
`spots = data.totalSpots || 5`, throws when `classTypeId` is falsy or does
not resolve, and otherwise creates the document with
`spotsLeft = spots - (initialMembers?.length || 0)` — with no check that
this is non-negative. -/
def createClass (classTypes : List String) (inp : CreateInput)
    (newId : String) : Except CreateError ClassDoc :=
  let spots := jsOr5 inp.totalSpots
  let initialMembersCount := (inp.initialMembers.map List.length).getD 0
  match inp.classTypeId with
  | none => .error .missingClassTypeId
  | some ct =>
    if ct = "" then .error .missingClassTypeId
    else if ct ∈ classTypes then
      .ok
        { id := newId,
          classTypeId := ct,
          day := inp.day,
          time := inp.time,
          members := inp.initialMembers.getD [],
          totalSpots := spots,
          spotsLeft := jsSubNat spots initialMembersCount,
          status := "active" }
    else .error .classTypeNotFound

/-- A roster request against one class: the payload of a `joinClass` or
`leaveClass` action. -/
inductive Op where
  | join : String → String → String → Op
  | leave : String → Op
  deriving DecidableEq, Repr

/-- Whether a `joinClass` response reports success. -/
def isSuccessJoin : JoinResult → Bool
  | .success => true
  | _ => false

/-- Whether a `leaveClass` response reports success. -/
def isSuccessLeave : LeaveResult → Bool
  | .success => true
  | _ => false

/-- Sequential execution of one roster request against the stored document:
the resulting stored document and whether the response reported success. -/
def applyOp (doc : ClassDoc) : Op → ClassDoc × Bool
  | .join u n t => ((joinClass doc u n t).2, isSuccessJoin (joinClass doc u n t).1)
  | .leave u => ((leaveClass doc u).2, isSuccessLeave (leaveClass doc u).1)

/-- The stored states observed right after each successful operation of a
sequentially executed request sequence. -/
def successStates (doc : ClassDoc) : List Op → List ClassDoc
  | [] => []
  | op :: ops =>
    let next := applyOp doc op
    (if next.2 then [next.1] else []) ++ successStates next.1 ops

/-- An AvailabilitySlot document as stored by `submitAvailability`:
`availabilities` is the slot-string array (`none` models a document where
the field is undefined, which the matcher's `doc.availabilities &&` guard
excludes). -/
structure AvailDoc where
  id : String
  userId : String
  classType : String
  availabilities : Option (List String)
  status : String
  deriving DecidableEq, Repr

/-- Whether an availability document's slot array contains the slot key. -/
def hasTimeSlot (timeSlot : String) (d : AvailDoc) : Bool :=
  match d.availabilities with
  | some l => l.contains timeSlot
  | none => false

/-- The `findMatchingUsers` helper of
`src/availabilityManagement/src/main.js` (lines 210-250): list the
availability documents with the given `classType` and `status == 'active'`
(the database query), keep those whose `availabilities` contain
`` `${day}-${time}` `` and whose `userId` differs from `excludeUserId`, and
project each to `{userId, availabilityId}`. -/
def findMatchingUsers (store : List AvailDoc)
    (classType day time excludeUserId : String) : List (String × String) :=
  let timeSlot := day ++ "-" ++ time
  (((store.filter (fun d => d.classType == classType && d.status == "active")).filter
      (fun d => hasTimeSlot timeSlot d && d.userId != excludeUserId)).map
    (fun d => (d.userId, d.id)))

/-- JS `slot.split('-')` on the character list of a slot string. -/
def splitDash : List Char → List (List Char)
  | [] => [[]]
  | c :: cs =>
    let rest := splitDash cs
    if c = '-' then [] :: rest
    else
      match rest with
      | [] => [[c]]
      | p :: ps => (c :: p) :: ps

/-- The `const [day, time] = slot.split('-')` destructuring followed by the
`!day || !time` validity check: `none` when either component is missing or
empty, otherwise the `(day, time)` pair. -/
def slotDayTime (slot : String) : Option (String × String) :=
  let parts := (splitDash slot.toList).map (fun cs => String.mk cs)
  match parts.get? 0, parts.get? 1 with
  | some d, some t => if d = "" ∨ t = "" then none else some (d, t)
  | _, _ => none

/-- The per-slot decision `checkForMatches` computes: a valid slot key whose
`findMatchingUsers` result has length at least 2 (at least 3 participants
including the submitter) is eligible for class formation. -/
def slotEligible (avails : List AvailDoc) (classType userId slot : String) :
    Bool :=
  match slotDayTime slot with
  | none => false
  | some (d, t) => 2 ≤ (findMatchingUsers avails classType d t userId).length

/-- The document-store contents `checkForMatches` can touch: the
availability collection and the classes collection. -/
structure MatchState where
  avails : List AvailDoc
  classes : List ClassDoc
  deriving DecidableEq, Repr

/-- The `checkForMatches` helper of
`src/availabilityManagement/src/main.js` (lines 174-208).  For each
submitted slot it computes the match list and the `matches.length >= 2`
threshold; on an eligible slot the source only logs the class it would
create (`TODO: Implement class creation logic`) and archives nothing, so
the store state is returned unchanged next to the per-slot decisions. -/
def checkForMatches (st : MatchState) (userId classType : String)
    (availabilities : List String) : MatchState × List Bool :=
  (st, availabilities.map (fun slot => slotEligible st.avails classType userId slot))

/-- Parameters of one in-flight `joinClass` request. -/
structure JoinCall where
  userId : String
  name : String
  nowIso : String
  deriving DecidableEq, Repr

/-- Progress of one in-flight `joinClass` request: it performs exactly two
store interactions — `getDocument` (suspension point), then the
check-and-`updateDocument` computed from its private snapshot. -/
inductive Phase where
  | start : Phase
  | readDone : ClassDoc → Phase
  | finished : JoinResult → Phase
  deriving DecidableEq, Repr

/-- One scheduler step of a single `joinClass` request against the shared
stored document: the read takes a snapshot; the write applies the
`{members, spotsLeft}` patch computed from that snapshot to the currently
stored document (Appwrite `updateDocument` patch semantics), with no
version check — exactly the unguarded read-modify-write of the source. -/
def stepProc (call : JoinCall) (stored : ClassDoc) : Phase → ClassDoc × Phase
  | .start => (stored, .readDone stored)
  | .readDone snap =>
    let next := joinClass snap call.userId call.name call.nowIso
    if isSuccessJoin next.1 then
      ({ stored with members := next.2.members, spotsLeft := next.2.spotsLeft },
        .finished next.1)
    else (stored, .finished next.1)
  | .finished r => (stored, .finished r)

/-- Shared state of two interleaved `joinClass` requests. -/
structure RaceState where
  stored : ClassDoc
  p1 : Phase
  p2 : Phase
  deriving DecidableEq, Repr

/-- Run the two requests under an explicit schedule (`true` steps the first
request, `false` the second). -/
def runSched (c1 c2 : JoinCall) : RaceState → List Bool → RaceState
  | st, [] => st
  | st, b :: bs =>
    if b then
      let next := stepProc c1 st.stored st.p1
      runSched c1 c2 { st with stored := next.1, p1 := next.2 } bs
    else
      let next := stepProc c2 st.stored st.p2
      runSched c1 c2 { st with stored := next.1, p2 := next.2 } bs

/-! Helper lemmas about the JS coercions and the roster operations. -/

theorem jsSubNat_orZero_num (T : Int) (k : Nat) :
    jsSubNat (jsOrZero (.num T)) k = .num (T - k) := by
  unfold jsOrZero jsTruthy jsSubNat jsToNumber
  by_cases h : T = 0 <;> simp [h]

theorem jsGe_orZero_num_false_iff (c : Nat) (T : Int) :
    jsGe c (jsOrZero (.num T)) = false ↔ (c : Int) < T := by
  unfold jsOrZero jsTruthy jsGe jsToNumber
  by_cases h : T = 0 <;> simp [h]

theorem isSuccessJoin_iff (r : JoinResult) :
    isSuccessJoin r = true ↔ r = .success := by
  cases r <;> simp [isSuccessJoin]

theorem isSuccessLeave_iff (r : LeaveResult) :
    isSuccessLeave r = true ↔ r = .success := by
  cases r <;> simp [isSuccessLeave]

/-- One `joinClass` request preserves a numeric `totalSpots` and the
capacity bound, and on success writes `spotsLeft` as the exact complement
of the new member count. -/
theorem join_inv (T : Int) (doc : ClassDoc) (u n t : String)
    (hts : doc.totalSpots = DocVal.num T)
    (hlen : (doc.members.length : Int) ≤ T) :
    (joinClass doc u n t).2.totalSpots = DocVal.num T
    ∧ ((joinClass doc u n t).2.members.length : Int) ≤ T
    ∧ ((joinClass doc u n t).1 = JoinResult.success →
        (joinClass doc u n t).2.spotsLeft =
          DocVal.num (T - (joinClass doc u n t).2.members.length)) := by
  simp only [joinClass]
  split
  · exact ⟨hts, hlen, by intro h; cases h⟩
  · split
    · exact ⟨hts, hlen, by intro h; cases h⟩
    · rename_i hfull _
      rw [Bool.not_eq_true, hts] at hfull
      have hlt : (doc.members.length : Int) < T :=
        (jsGe_orZero_num_false_iff _ _).mp hfull
      refine ⟨hts, ?_, ?_⟩
      · simp
        omega
      · intro _
        simp [hts, jsSubNat_orZero_num]

/-- One `leaveClass` request preserves a numeric `totalSpots` and the
capacity bound, and on success writes `spotsLeft` as the exact complement
of the remaining member count. -/
theorem leave_inv (T : Int) (doc : ClassDoc) (u : String)
    (hts : doc.totalSpots = DocVal.num T)
    (hlen : (doc.members.length : Int) ≤ T) :
    (leaveClass doc u).2.totalSpots = DocVal.num T
    ∧ ((leaveClass doc u).2.members.length : Int) ≤ T
    ∧ ((leaveClass doc u).1 = LeaveResult.success →
        (leaveClass doc u).2.spotsLeft =
          DocVal.num (T - (leaveClass doc u).2.members.length)) := by
  simp only [leaveClass]
  split
  · exact ⟨hts, hlen, by intro h; cases h⟩
  · refine ⟨hts, ?_, ?_⟩
    · have hfle := List.length_filter_le (fun e => ! entryIsUser u e) doc.members
      simp only []
      omega
    · intro _
      simp [hts, jsSubNat_orZero_num]

theorem applyOp_inv (T : Int) (doc : ClassDoc) (op : Op)
    (hts : doc.totalSpots = DocVal.num T)
    (hlen : (doc.members.length : Int) ≤ T) :
    (applyOp doc op).1.totalSpots = DocVal.num T
    ∧ ((applyOp doc op).1.members.length : Int) ≤ T
    ∧ ((applyOp doc op).2 = true →
        (applyOp doc op).1.spotsLeft =
          DocVal.num (T - (applyOp doc op).1.members.length)) := by
  cases op with
  | join u n t =>
    obtain ⟨h1, h2, h3⟩ := join_inv T doc u n t hts hlen
    exact ⟨h1, h2, fun hs => h3 ((isSuccessJoin_iff _).mp hs)⟩
  | leave u =>
    obtain ⟨h1, h2, h3⟩ := leave_inv T doc u hts hlen
    exact ⟨h1, h2, fun hs => h3 ((isSuccessLeave_iff _).mp hs)⟩

/-- Claim C1 (amended): starting from a class document whose `totalSpots` is
a number `T` with `|members| ≤ T`, every finite sequence of sequentially
executed `joinClass`/`leaveClass` requests keeps, after each operation that
reports success, `|members| ≤ totalSpots` and
`spotsLeft = totalSpots - |members|`.  (Unrestricted over all documents the
claim fails, see `C1_capacity_overfull_counterexample`.) -/
theorem C1_capacity_invariant (T : Int) (doc : ClassDoc) (ops : List Op)
    (hts : doc.totalSpots = DocVal.num T)
    (hlen : (doc.members.length : Int) ≤ T) :
    ∀ d ∈ successStates doc ops,
      (d.members.length : Int) ≤ T
      ∧ d.totalSpots = DocVal.num T
      ∧ d.spotsLeft = DocVal.num (T - d.members.length) := by
  induction ops generalizing doc with
  | nil => intro d hd; simp [successStates] at hd
  | cons op ops ih =>
    intro d hd
    simp only [successStates] at hd
    obtain ⟨h1, h2, h3⟩ := applyOp_inv T doc op hts hlen
    rcases List.mem_append.mp hd with hd | hd
    · by_cases hs : (applyOp doc op).2 = true
      · simp only [hs, if_true, List.mem_singleton] at hd
        subst hd
        exact ⟨h2, h1, h3 hs⟩
      · simp [hs] at hd
    · exact ih (applyOp doc op).1 h1 h2 d hd

/-- Example class document for the C1 witness. -/
def c1Doc : ClassDoc :=
  { id := "c1", classTypeId := "ct1", day := "Monday", time := "6:00 PM",
    members := [], totalSpots := .num 2, spotsLeft := .num 2,
    status := "active" }

/-- Request sequence for the C1 witness. -/
def c1Ops : List Op :=
  [.join "u1" "Alice" "t1", .join "u2" "Bob" "t2", .leave "u1"]

/-- Stored state observed after the second successful join of `c1Ops`. -/
def c1State : ClassDoc :=
  { c1Doc with
      members := [.ok "u1" "Alice" "t1", .ok "u2" "Bob" "t2"],
      spotsLeft := .num 0 }

/-- Witness for C1: the invariant theorem applied to a concrete class with
two spots and a join-join-leave sequence, evaluated at the state reached
after the second successful join. -/
theorem C1_capacity_invariant_witness :
    c1Doc.totalSpots = DocVal.num 2
    ∧ (c1Doc.members.length : Int) ≤ 2
    ∧ ((c1State.members.length : Int) ≤ 2
        ∧ c1State.totalSpots = DocVal.num 2
        ∧ c1State.spotsLeft = DocVal.num (2 - c1State.members.length)) :=
  ⟨by decide, by decide,
    C1_capacity_invariant 2 c1Doc c1Ops (by decide) (by decide) c1State
      (by decide)⟩

/-- Over-full class document used by the C1 counterexample; it is exactly
the document `createClass` produces from `c1BadInput` (the source performs
no validation of `initialMembers` against `totalSpots`). -/
def c1BadDoc : ClassDoc :=
  { id := "c9", classTypeId := "ct1", day := "Monday", time := "6:00 PM",
    members := [.ok "u1" "Alice" "t1", .ok "u2" "Bob" "t2", .ok "u3" "Carl" "t3"],
    totalSpots := .num 1, spotsLeft := .num (-2), status := "active" }

/-- `createClass` payload producing `c1BadDoc`. -/
def c1BadInput : CreateInput :=
  { classTypeId := some "ct1", day := "Monday", time := "6:00 PM",
    initialMembers :=
      some [.ok "u1" "Alice" "t1", .ok "u2" "Bob" "t2", .ok "u3" "Carl" "t3"],
    totalSpots := .num 1 }

/-- Counterexample to C1 as stated over every class document: a class with
three members and one total spot (created by `createClass` itself) still has
two members — more than `totalSpots` — after a successful `leaveClass`. -/
theorem C1_capacity_overfull_counterexample :
    createClass ["ct1"] c1BadInput "c9" = Except.ok c1BadDoc
    ∧ (leaveClass c1BadDoc "u1").1 = LeaveResult.success
    ∧ ¬ (((leaveClass c1BadDoc "u1").2.members.length : Int) ≤ 1) := by
  refine ⟨by rfl, by decide, by decide⟩

/-- Class document with exactly one remaining spot, used by the C2 race. -/
def c2Doc : ClassDoc :=
  { id := "c2", classTypeId := "ct1", day := "Monday", time := "6:00 PM",
    members := [], totalSpots := .num 1, spotsLeft := .num 1,
    status := "active" }

/-- Claim C2 fails on the code: `joinClass` runs its capacity check and its
write as two separate store interactions with no version guard, so under
the interleaving read1, read2, write1, write2 both requests against a class
with `spotsLeft == 1` pass the check on the same snapshot and both report
success — the exact race the source does not guard against. -/
theorem C2_double_success_race :
    (runSched ⟨"u1", "Alice", "t1"⟩ ⟨"u2", "Bob", "t2"⟩
        ⟨c2Doc, .start, .start⟩ [true, false, true, false]).p1 =
      Phase.finished JoinResult.success
    ∧ (runSched ⟨"u1", "Alice", "t1"⟩ ⟨"u2", "Bob", "t2"⟩
        ⟨c2Doc, .start, .start⟩ [true, false, true, false]).p2 =
      Phase.finished JoinResult.success
    ∧ c2Doc.spotsLeft = DocVal.num 1 := by
  decide

/-- Availability store for the C3 scenario: two other users share the
submitter's slot, so the `matches.length >= 2` threshold is met. -/
def c3Avails : List AvailDoc :=
  [ { id := "a1", userId := "u1", classType := "mandarin",
      availabilities := some ["Monday-6:00 PM"], status := "active" },
    { id := "a2", userId := "u2", classType := "mandarin",
      availabilities := some ["Monday-6:00 PM"], status := "active" } ]

/-- Claim C3 fails on the code: with exactly 2 other matching users the
eligibility decision is taken (`matches.length >= 2` holds and the slot is
reported eligible), yet `checkForMatches` creates no Class — the classes
collection stays empty, since the source only logs the class it would
create (`TODO: Implement class creation logic`). -/
theorem C3_no_class_created :
    (findMatchingUsers c3Avails "mandarin" "Monday" "6:00 PM" "u3").length = 2
    ∧ (checkForMatches ⟨c3Avails, []⟩ "u3" "mandarin" ["Monday-6:00 PM"]).2 = [true]
    ∧ (checkForMatches ⟨c3Avails, []⟩ "u3" "mandarin" ["Monday-6:00 PM"]).1.classes = [] := by
  decide

/-- Availability store for the C4 scenario (same shape as C3's). -/
def c4Avails : List AvailDoc :=
  [ { id := "a1", userId := "u1", classType := "mandarin",
      availabilities := some ["Monday-6:00 PM"], status := "active" },
    { id := "a2", userId := "u2", classType := "mandarin",
      availabilities := some ["Monday-6:00 PM"], status := "active" } ]

/-- Claim C4 fails on the code: after `checkForMatches` runs on a slot that
meets the formation threshold, the participating AvailabilitySlot documents
are untouched — none is transitioned to Archived (the store is returned
unchanged and every document still has status `active`), and a subsequent
`findMatches` query for the same slot still returns all of them. -/
theorem C4_no_archival :
    (checkForMatches ⟨c4Avails, []⟩ "u3" "mandarin" ["Monday-6:00 PM"]).1 =
      MatchState.mk c4Avails []
    ∧ ((checkForMatches ⟨c4Avails, []⟩ "u3" "mandarin" ["Monday-6:00 PM"]).1.avails.filter
        (fun d => d.status == "active")).length = 2
    ∧ findMatchingUsers
        (checkForMatches ⟨c4Avails, []⟩ "u3" "mandarin" ["Monday-6:00 PM"]).1.avails
        "mandarin" "Monday" "6:00 PM" "u3" = [("u1", "a1"), ("u2", "a2")] := by
  decide

theorem hasTimeSlot_iff (slot : String) (d : AvailDoc) :
    hasTimeSlot slot d = true ↔ ∃ l, d.availabilities = some l ∧ slot ∈ l := by
  cases h : d.availabilities <;> simp [hasTimeSlot, h]

/-- Claim C5: `findMatchingUsers` returns exactly the `(userId,
availabilityId)` pairs of the Active availability documents for the class
type whose slot array contains the requested `day-time` slot and whose
`userId` differs from `excludeUserId`; it never returns `excludeUserId`,
and it returns the empty list when no document qualifies. -/
theorem C5_findMatches_exact (store : List AvailDoc) (ct day time ex : String) :
    (∀ p : String × String,
      p ∈ findMatchingUsers store ct day time ex ↔
        ∃ d ∈ store,
          d.classType = ct ∧ d.status = "active"
          ∧ (∃ l, d.availabilities = some l ∧ (day ++ "-" ++ time) ∈ l)
          ∧ d.userId ≠ ex ∧ p = (d.userId, d.id))
    ∧ (∀ a : String, (ex, a) ∉ findMatchingUsers store ct day time ex)
    ∧ ((∀ d ∈ store, ¬ (d.classType = ct ∧ d.status = "active"
          ∧ (∃ l, d.availabilities = some l ∧ (day ++ "-" ++ time) ∈ l)
          ∧ d.userId ≠ ex)) →
        findMatchingUsers store ct day time ex = []) := by
  have hmem : ∀ p : String × String,
      p ∈ findMatchingUsers store ct day time ex ↔
        ∃ d ∈ store,
          d.classType = ct ∧ d.status = "active"
          ∧ (∃ l, d.availabilities = some l ∧ (day ++ "-" ++ time) ∈ l)
          ∧ d.userId ≠ ex ∧ p = (d.userId, d.id) := by
    intro p
    simp only [findMatchingUsers, List.mem_map, List.mem_filter,
      Bool.and_eq_true, beq_iff_eq, bne_iff_ne, hasTimeSlot_iff]
    constructor
    · rintro ⟨d, ⟨⟨⟨hd, hct, hst⟩, hslot, hex⟩, rfl⟩⟩
      exact ⟨d, hd, hct, hst, hslot, hex, rfl⟩
    · rintro ⟨d, hd, hct, hst, hslot, hex, rfl⟩
      exact ⟨d, ⟨⟨hd, hct, hst⟩, hslot, hex⟩, rfl⟩
  refine ⟨hmem, ?_, ?_⟩
  · intro a hcon
    obtain ⟨d, _, _, _, _, hne, hp⟩ := (hmem (ex, a)).mp hcon
    exact hne (congrArg Prod.fst hp).symm
  · intro hnone
    rcases h : findMatchingUsers store ct day time ex with _ | ⟨p, ps⟩
    · rfl
    · exfalso
      have hpmem : p ∈ findMatchingUsers store ct day time ex := by
        rw [h]
        exact List.mem_cons_self p ps
      obtain ⟨d, hd, hct, hst, hslot, hex, _⟩ := (hmem p).mp hpmem
      exact hnone d hd ⟨hct, hst, hslot, hex⟩

/-- Availability document of the second user for the C5 witness. -/
def c5DocU2 : AvailDoc :=
  { id := "a2", userId := "u2", classType := "mandarin",
    availabilities := some ["Monday-6:00 PM"], status := "active" }

/-- Availability store for the C5 witness. -/
def c5Store : List AvailDoc :=
  [ { id := "a1", userId := "u1", classType := "mandarin",
      availabilities := some ["Monday-6:00 PM"], status := "active" },
    c5DocU2 ]

/-- Witness for C5: the characterisation applied to a concrete store — the
other user's document is returned for the shared slot. -/
theorem C5_findMatches_exact_witness :
    ("u2", "a2") ∈ findMatchingUsers c5Store "mandarin" "Monday" "6:00 PM" "u1" :=
  ((C5_findMatches_exact c5Store "mandarin" "Monday" "6:00 PM" "u1").1
      ("u2", "a2")).mpr
    ⟨c5DocU2, by decide, rfl, rfl, ⟨["Monday-6:00 PM"], rfl, by decide⟩,
      by decide, rfl⟩

/-- Claim C6 (amended): in the part_002 revision of `joinClass`, for a class
with a numeric `totalSpots`, at least two free spots, and no pre-existing
member entry for the user, joining twice for the same user leaves exactly
one member entry for that user and the second call answers `AlreadyJoined`
without mutating the class.  (The part_001 revision has no duplicate check,
see `C6_duplicate_join_counterexample`.) -/
theorem C6_no_duplicate_join (doc : ClassDoc) (u name t1 t2 : String) (T : Int)
    (hts : doc.totalSpots = DocVal.num T)
    (hfree : (doc.members.length : Int) + 2 ≤ T)
    (hnew : ∀ e ∈ doc.members, entryIsUser u e = false) :
    (joinClass doc u name t1).1 = JoinResult.success
    ∧ (joinClass (joinClass doc u name t1).2 u name t2).1 =
        JoinResult.alreadyJoined
    ∧ (joinClass (joinClass doc u name t1).2 u name t2).2 =
        (joinClass doc u name t1).2
    ∧ ((joinClass doc u name t1).2.members.filter
        (fun e => entryIsUser u e)).length = 1 := by
  have hfull1 : jsGe doc.members.length (jsOrZero doc.totalSpots) = false := by
    rw [hts]
    exact (jsGe_orZero_num_false_iff _ _).mpr (by omega)
  have hany1 : doc.members.any (entryIsUser u) = false :=
    List.any_eq_false.mpr (fun e he => by simp [hnew e he])
  have hj1 : joinClass doc u name t1 =
      (.success,
        { doc with
            members := doc.members ++ [MemberEntry.ok u name t1],
            spotsLeft := jsSubNat (jsOrZero doc.totalSpots)
              (doc.members ++ [MemberEntry.ok u name t1]).length }) := by
    simp [joinClass, hfull1, hany1]
  have hfull2 : jsGe (doc.members.length + 1) (jsOrZero doc.totalSpots) = false := by
    rw [hts]
    exact (jsGe_orZero_num_false_iff _ _).mpr (by omega)
  have hj2 : joinClass (joinClass doc u name t1).2 u name t2 =
      (.alreadyJoined, (joinClass doc u name t1).2) := by
    rw [hj1]
    simp [joinClass, hfull2, hany1, entryIsUser]
  have hfil : (doc.members ++ [MemberEntry.ok u name t1]).filter
      (fun e => entryIsUser u e) = [MemberEntry.ok u name t1] := by
    rw [List.filter_append]
    rw [List.filter_eq_nil_iff.mpr (fun e he => by simp [hnew e he])]
    simp [entryIsUser]
  refine ⟨by rw [hj1], by rw [hj2], by rw [hj2], ?_⟩
  rw [hj1]
  simp [hfil]

/-- Fresh class with five spots for the C6 witness. -/
def c6Doc : ClassDoc :=
  { id := "c6", classTypeId := "ct1", day := "Monday", time := "6:00 PM",
    members := [], totalSpots := .num 5, spotsLeft := .num 5,
    status := "active" }

/-- Witness for C6: the double-join theorem applied to a concrete empty
class with five spots. -/
theorem C6_no_duplicate_join_witness :
    c6Doc.totalSpots = DocVal.num 5
    ∧ (c6Doc.members.length : Int) + 2 ≤ 5
    ∧ ((joinClass c6Doc "u1" "Alice" "t1").1 = JoinResult.success
      ∧ (joinClass (joinClass c6Doc "u1" "Alice" "t1").2 "u1" "Alice" "t2").1 =
          JoinResult.alreadyJoined
      ∧ (joinClass (joinClass c6Doc "u1" "Alice" "t1").2 "u1" "Alice" "t2").2 =
          (joinClass c6Doc "u1" "Alice" "t1").2
      ∧ ((joinClass c6Doc "u1" "Alice" "t1").2.members.filter
          (fun e => entryIsUser "u1" e)).length = 1) :=
  ⟨by decide, by decide,
    C6_no_duplicate_join c6Doc "u1" "Alice" "t1" "t2" 5 (by decide) (by decide)
      (by decide)⟩

/-- Fresh class with five spots for the C6 counterexample. -/
def c6V1Doc : ClassDoc :=
  { id := "c6v1", classTypeId := "ct1", day := "Monday", time := "6:00 PM",
    members := [], totalSpots := .num 5, spotsLeft := .num 5,
    status := "active" }

/-- Counterexample to C6 as stated: the part_001 revision of `joinClass`
(also cited by the claim) performs no duplicate-membership check, so the
second join for the same user also reports success and the class ends up
with two member entries for that user. -/
theorem C6_duplicate_join_counterexample :
    (joinClass_v1 c6V1Doc "u1" "Alice").1 = JoinResult.success
    ∧ (joinClass_v1 (joinClass_v1 c6V1Doc "u1" "Alice").2 "u1" "Alice").1 =
        JoinResult.success
    ∧ ((joinClass_v1 (joinClass_v1 c6V1Doc "u1" "Alice").2 "u1" "Alice").2.members.filter
        (fun e => entryIsUser "u1" e)).length = 2 := by
  decide

/-- Claim C7: when no member entry parses to the given userId, `leaveClass`
answers `NotEnrolled` and performs no write — the returned document is the
input document, every field unchanged. -/
theorem C7_leave_not_enrolled (doc : ClassDoc) (u : String)
    (h : ∀ e ∈ doc.members, entryIsUser u e = false) :
    leaveClass doc u = (LeaveResult.notEnrolled, doc) := by
  have hfil : doc.members.filter (fun e => ! entryIsUser u e) = doc.members :=
    List.filter_eq_self.mpr (fun e he => by simp [h e he])
  simp [leaveClass, hfil]

/-- Class containing only another user, for the C7 witness. -/
def c7Doc : ClassDoc :=
  { id := "c7", classTypeId := "ct1", day := "Monday", time := "6:00 PM",
    members := [.ok "u2" "Bob" "t1"], totalSpots := .num 5,
    spotsLeft := .num 4, status := "active" }

/-- Witness for C7: leaving a class that only contains another user. -/
theorem C7_leave_not_enrolled_witness :
    leaveClass c7Doc "u1" = (LeaveResult.notEnrolled, c7Doc) :=
  C7_leave_not_enrolled c7Doc "u1" (by decide)

/-- Claim C9: a successful `leaveClass` removes every member entry whose
userId matches — the result is the full filter of the members array, which
afterwards contains no entry for that user even if duplicates existed. -/
theorem C9_leave_removes_all (doc : ClassDoc) (u : String)
    (h : ∃ e ∈ doc.members, entryIsUser u e = true) :
    (leaveClass doc u).1 = LeaveResult.success
    ∧ (leaveClass doc u).2.members =
        doc.members.filter (fun e => ! entryIsUser u e)
    ∧ ∀ e ∈ (leaveClass doc u).2.members, entryIsUser u e = false := by
  have hlt : (doc.members.filter (fun e => ! entryIsUser u e)).length
      < doc.members.length := by
    obtain ⟨e, he, hu⟩ := h
    exact List.length_filter_lt_length_iff_exists.mpr ⟨e, he, by simp [hu]⟩
  have hne : ¬ ((doc.members.filter (fun e => ! entryIsUser u e)).length
      = doc.members.length) := by omega
  refine ⟨by simp [leaveClass, hne], by simp [leaveClass, hne], ?_⟩
  intro e he
  simp only [leaveClass, hne, if_false] at he
  have := (List.mem_filter.mp he).2
  simpa using this

/-- Class with duplicate entries for one user, for the C9 witness. -/
def c9Doc : ClassDoc :=
  { id := "c9d", classTypeId := "ct1", day := "Monday", time := "6:00 PM",
    members := [.ok "u1" "Alice" "t1", .ok "u1" "Alice" "t2", .ok "u2" "Bob" "t3"],
    totalSpots := .num 5, spotsLeft := .num 2, status := "active" }

/-- Witness for C9: leaving with duplicate entries present removes both. -/
theorem C9_leave_removes_all_witness :
    (leaveClass c9Doc "u1").1 = LeaveResult.success
    ∧ (leaveClass c9Doc "u1").2.members =
        c9Doc.members.filter (fun e => ! entryIsUser "u1" e) :=
  ⟨(C9_leave_removes_all c9Doc "u1" (by decide)).1,
    (C9_leave_removes_all c9Doc "u1" (by decide)).2.1⟩

/-- Claim C8 (amended): `createClass` creates the class with
`spotsLeft = totalSpots - |initialMembers|`, `totalSpots` defaulting to 5
when unspecified (or falsy); it fails when `classTypeId` is missing or
empty, and with a not-found error when `classTypeId` does not reference an
existing ClassTypeDefinition.  It performs no validation when the computed
`spotsLeft` is negative — the class is created anyway, see
`C8_negative_spotsLeft_counterexample`. -/
theorem C8_createClass_behavior (classTypes : List String) (inp : CreateInput)
    (newId : String) :
    (inp.classTypeId = none →
      createClass classTypes inp newId = Except.error CreateError.missingClassTypeId)
    ∧ (inp.classTypeId = some "" →
      createClass classTypes inp newId = Except.error CreateError.missingClassTypeId)
    ∧ (∀ ct, inp.classTypeId = some ct → ct ≠ "" → ct ∉ classTypes →
      createClass classTypes inp newId = Except.error CreateError.classTypeNotFound)
    ∧ (∀ ct, inp.classTypeId = some ct → ct ≠ "" → ct ∈ classTypes →
      createClass classTypes inp newId = Except.ok
        { id := newId, classTypeId := ct, day := inp.day, time := inp.time,
          members := inp.initialMembers.getD [],
          totalSpots := jsOr5 inp.totalSpots,
          spotsLeft := jsSubNat (jsOr5 inp.totalSpots)
            ((inp.initialMembers.map List.length).getD 0),
          status := "active" })
    ∧ (∀ T : Int, inp.totalSpots = DocVal.num T → T ≠ 0 →
        jsSubNat (jsOr5 inp.totalSpots) ((inp.initialMembers.map List.length).getD 0)
          = DocVal.num (T - ((inp.initialMembers.map List.length).getD 0)))
    ∧ (inp.totalSpots = DocVal.undef →
        jsSubNat (jsOr5 inp.totalSpots) ((inp.initialMembers.map List.length).getD 0)
          = DocVal.num (5 - ((inp.initialMembers.map List.length).getD 0))) := by
  refine ⟨?_, ?_, ?_, ?_, ?_, ?_⟩
  · intro h
    simp [createClass, h]
  · intro h
    simp [createClass, h]
  · intro ct hct hne hnotin
    simp [createClass, hct, hne, hnotin]
  · intro ct hct hne hin
    simp [createClass, hct, hne, hin]
  · intro T hT hTne
    simp [hT, jsOr5, jsTruthy, hTne, jsSubNat, jsToNumber]
  · intro h
    simp [h, jsOr5, jsTruthy, jsSubNat, jsToNumber]

/-- Valid `createClass` payload for the C8 witness. -/
def c8Inp : CreateInput :=
  { classTypeId := some "ct1", day := "Monday", time := "6:00 PM",
    initialMembers := some [.ok "u1" "Alice" "t1"], totalSpots := .num 4 }

/-- Witness for C8: the behavior theorem applied to a concrete payload with
an existing class type. -/
theorem C8_createClass_behavior_witness :
    createClass ["ct1"] c8Inp "cNew" = Except.ok
      { id := "cNew", classTypeId := "ct1", day := c8Inp.day, time := c8Inp.time,
        members := c8Inp.initialMembers.getD [],
        totalSpots := jsOr5 c8Inp.totalSpots,
        spotsLeft := jsSubNat (jsOr5 c8Inp.totalSpots)
          ((c8Inp.initialMembers.map List.length).getD 0),
        status := "active" } :=
  (C8_createClass_behavior ["ct1"] c8Inp "cNew").2.2.2.1 "ct1" rfl (by decide)
    (by decide)

/-- Payload with three initial members and two total spots, used by the C8
counterexample. -/
def c8BadInp : CreateInput :=
  { classTypeId := some "ct1", day := "Monday", time := "6:00 PM",
    initialMembers :=
      some [.ok "u1" "Alice" "t1", .ok "u2" "Bob" "t2", .ok "u3" "Carl" "t3"],
    totalSpots := .num 2 }

/-- The class document `createClass` actually produces from `c8BadInp`. -/
def c8BadDoc : ClassDoc :=
  { id := "cNeg", classTypeId := "ct1", day := "Monday", time := "6:00 PM",
    members := [.ok "u1" "Alice" "t1", .ok "u2" "Bob" "t2", .ok "u3" "Carl" "t3"],
    totalSpots := .num 2, spotsLeft := .num (-1), status := "active" }

/-- Counterexample to C8 as stated: when `totalSpots - |initialMembers|`
is negative, `createClass` does not fail with a validation error — it
creates the class with `spotsLeft = -1`. -/
theorem C8_negative_spotsLeft_counterexample :
    createClass ["ct1"] c8BadInp "cNeg" = Except.ok c8BadDoc
    ∧ c8BadDoc.spotsLeft = DocVal.num (-1) := by
  refine ⟨by rfl, by decide⟩

/-- Claim C10 (amended): a class document whose `totalSpots` is absent, 0,
or the empty string is treated as capacity 0 by the part_002 `joinClass`,
which answers `Full` for every user — even with an empty members list —
without mutating the document; the part_001 `joinClass` coerces every
non-number (any string, or absent) to 0 and does the same.  A truthy
non-numeric `totalSpots` is NOT treated as capacity 0 by part_002, see
`C10_nonnumeric_totalSpots_counterexample`. -/
theorem C10_falsy_totalSpots_full (doc : ClassDoc) (u n t : String) :
    ((doc.totalSpots = DocVal.undef ∨ doc.totalSpots = DocVal.num 0
        ∨ doc.totalSpots = DocVal.str "") →
      joinClass doc u n t = (JoinResult.full, doc))
    ∧ (∀ s, (doc.totalSpots = DocVal.undef ∨ doc.totalSpots = DocVal.str s
        ∨ doc.totalSpots = DocVal.num 0) →
      joinClass_v1 doc u n = (JoinResult.full, doc)) := by
  constructor
  · intro h
    have hz : jsOrZero doc.totalSpots = DocVal.num 0 := by
      rcases h with h | h | h <;> simp [jsOrZero, jsTruthy, h]
    simp [joinClass, hz, jsGe, jsToNumber, Int.natCast_nonneg]
  · intro s h
    rcases h with h | h | h <;>
      simp [joinClass_v1, h, jsGe, jsToNumber, Int.natCast_nonneg]

/-- Empty class whose `totalSpots` field is absent, for the C10 witness. -/
def c10Doc : ClassDoc :=
  { id := "c10", classTypeId := "ct1", day := "Monday", time := "6:00 PM",
    members := [], totalSpots := .undef, spotsLeft := .undef,
    status := "active" }

/-- Witness for C10: both revisions answer `Full` on an empty class with an
absent `totalSpots`. -/
theorem C10_falsy_totalSpots_full_witness :
    joinClass c10Doc "u1" "Alice" "t1" = (JoinResult.full, c10Doc)
    ∧ joinClass_v1 c10Doc "u1" "Alice" = (JoinResult.full, c10Doc) :=
  ⟨(C10_falsy_totalSpots_full c10Doc "u1" "Alice" "t1").1 (Or.inl rfl),
    (C10_falsy_totalSpots_full c10Doc "u1" "Alice" "t1").2 "" (Or.inl rfl)⟩

/-- Empty class whose `totalSpots` is the non-numeric string "abc", for the
C10 counterexample. -/
def c10BadDoc : ClassDoc :=
  { id := "c10b", classTypeId := "ct1", day := "Monday", time := "6:00 PM",
    members := [], totalSpots := .str "abc", spotsLeft := .undef,
    status := "active" }

/-- Counterexample to C10 as stated: in part_002 a truthy non-numeric
`totalSpots` ("abc") makes the capacity comparison a NaN comparison, which
is false, so the join is NOT rejected as Full — it succeeds, appends the
member, and stores a NaN `spotsLeft`. -/
theorem C10_nonnumeric_totalSpots_counterexample :
    (joinClass c10BadDoc "u1" "Alice" "t1").1 = JoinResult.success
    ∧ (joinClass c10BadDoc "u1" "Alice" "t1").2.members =
        [MemberEntry.ok "u1" "Alice" "t1"]
    ∧ (joinClass c10BadDoc "u1" "Alice" "t1").2.spotsLeft = DocVal.nan := by
  decide

end ClassScheduler
